import Mathlib

/-!
Shallow embedding of the timestamp-verification core of the `relic` code-signing
tool (package `pkcs9`, file `lib/pkcs9/pkcs7.go`) and of the PowerShell signer
facade (`signers/ps/signer.go`), together with proofs about the claims of the
specification.

Modelling conventions:
* byte strings are `List Nat`; OIDs are `List Nat`; certificates are opaque `Nat`
  identifiers; `time.Time` is an `Int` whose value `0` plays the role of Go's
  zero `time.Time`.
* external collaborators that live in this repository but outside the verified
  sources (`lib/pkcs7`, `lib/x509tools`, the Go `crypto/x509` library, the
  authenticode style registry, the `pkcs` timestamp attacher) are modelled
  either as oracle fields of a context structure, or as definitions whose doc
  comment starts with `Modelled from the spec:`.
* Go's `(value, error)` returns become `Except GoErr value`.
-/

/-- Byte strings, abstracted as lists of naturals. -/
abbrev Bytes := List Nat

/-- ASN.1 object identifiers, abstracted as lists of naturals. -/
abbrev OID := List Nat

/-- Certificates are opaque identifiers; chain building is delegated to oracles. -/
abbrev Cert := Nat

/-- A pool of trusted root certificates (`*x509.CertPool`). -/
abbrev RootPool := List Cert

/-- Standard RFC 3161 timestamp-token attribute OID (id-aa-timeStampToken,
1.2.840.113549.1.9.16.2.14). Declared in the pkcs9 package. -/
def OidAttributeTimeStampToken : OID := [1, 2, 840, 113549, 1, 9, 16, 2, 14]

/-- Authenticode-specific timestamp attribute OID (1.3.6.1.4.1.311.3.3.1).
Declared in the pkcs9 package. -/
def OidSpcTimeStampToken : OID := [1, 3, 6, 1, 4, 1, 311, 3, 3, 1]

/-- Legacy counter-signature attribute OID (pkcs-9 counterSignature,
1.2.840.113549.1.9.6). Declared in the pkcs7 package. -/
def OidAttributeCounterSign : OID := [1, 2, 840, 113549, 1, 9, 6]

/-- Signing-time authenticated attribute OID (pkcs-9 signingTime,
1.2.840.113549.1.9.5). Declared in the pkcs7 package. -/
def OidAttributeSigningTime : OID := [1, 2, 840, 113549, 1, 9, 5]

/-- Go `error` values that flow through the modelled code.  `errNoAttribute`
models the `pkcs7.ErrNoAttribute` type (carrying the OID that was looked up);
`errUnmarshal` models an ASN.1 unmarshalling failure inside `GetOne`; `errMsg`
models every error built with `errors.New` / `fmt.Errorf`. -/
inductive GoErr : Type where
  | errNoAttribute (oid : OID)
  | errUnmarshal (oid : OID)
  | errMsg (s : String)
deriving DecidableEq

/-- The Go type switch `_, ok := err.(pkcs7.ErrNoAttribute)`. -/
def GoErr.isNoAttribute : GoErr → Bool
  | .errNoAttribute _ => true
  | _ => false

/-- The Go `err.Error()` string, used when an error is rewrapped with
`fmt.Errorf("...: %s", err)`. -/
def GoErr.message : GoErr → String
  | .errNoAttribute _ => "attribute not found"
  | .errUnmarshal _ => "unmarshal error"
  | .errMsg s => s

/-- RFC 3161 MessageImprint: a hash algorithm identifier plus the hash value the
timestamp token attests to. -/
structure MessageImprint : Type where
  hashAlgorithm : Nat
  hashedMessage : Bytes
deriving DecidableEq

/-- The TSTInfo payload of a timestamp token, reduced to the field the verifier
reads: its MessageImprint. -/
structure TSTInfo : Type where
  messageImprint : MessageImprint
deriving DecidableEq

mutual

/-- A value stored under an OID in a PKCS#7 attribute list.  The verifier
unmarshals attributes as a nested signed-data token, a bare SignerInfo, or a
signing time; `raw` stands for any other payload (unmarshalling into one of the
three expected shapes fails on it). -/
inductive AttrValue : Type where
  | token (t : ContentInfoSignedData)
  | signer (si : SignerInfo)
  | time (t : Int)
  | raw (b : Bytes)

/-- `pkcs7.SignerInfo`, reduced to the fields the verified code reads: digest
algorithm, encrypted digest (the raw signature value), authenticated and
unauthenticated attribute lists. -/
inductive SignerInfo : Type where
  | mk (digestAlgorithm : Nat) (encryptedDigest : Bytes)
      (authenticatedAttributes : List (OID × AttrValue))
      (unauthenticatedAttributes : List (OID × AttrValue))

/-- `pkcs7.ContentInfoSignedData` with its `Content` flattened in: the nested
SignerInfos, the parse result of its bundled certificates (`none` models a
`Certificates.Parse()` error), the parse result of its TSTInfo (`none` models an
`UnpackTokenInfo` error) and the raw content bytes (`none` models a
`ContentInfo.Bytes()` error).  Storing the deterministic parse outcomes as data
is the shallow embedding of the ASN.1 codec. -/
inductive ContentInfoSignedData : Type where
  | mk (signerInfos : List SignerInfo) (certificates : Option (List Cert))
      (tstinfo : Option TSTInfo) (contentBytes : Option Bytes)

end

def SignerInfo.digestAlgorithm : SignerInfo → Nat
  | .mk d _ _ _ => d

def SignerInfo.encryptedDigest : SignerInfo → Bytes
  | .mk _ e _ _ => e

def SignerInfo.authenticatedAttributes : SignerInfo → List (OID × AttrValue)
  | .mk _ _ a _ => a

def SignerInfo.unauthenticatedAttributes : SignerInfo → List (OID × AttrValue)
  | .mk _ _ _ u => u

def ContentInfoSignedData.signerInfos : ContentInfoSignedData → List SignerInfo
  | .mk s _ _ _ => s

def ContentInfoSignedData.certificates : ContentInfoSignedData → Option (List Cert)
  | .mk _ c _ _ => c

def ContentInfoSignedData.tstinfo : ContentInfoSignedData → Option TSTInfo
  | .mk _ _ t _ => t

def ContentInfoSignedData.contentBytes : ContentInfoSignedData → Option Bytes
  | .mk _ _ _ b => b

/-- `pkcs7.Signature`: a SignerInfo paired with its resolved leaf certificate
and the intermediates carried alongside it. -/
structure Signature : Type where
  signerInfo : SignerInfo
  certificate : Cert
  intermediates : List Cert

/-- Validated timestamp token (`pkcs9.CounterSignature`). -/
structure CounterSignature : Type where
  signature : Signature
  hash : Nat
  signingTime : Int

/-- Validated signature possibly containing a valid timestamp token
(`pkcs9.TimestampedSignature`). -/
structure TimestampedSignature : Type where
  signature : Signature
  counterSignature : Option CounterSignature

/-- The options handed to Go's `x509.Certificate.Verify`. -/
structure VerifyOptions : Type where
  intermediates : List Cert
  roots : RootPool
  currentTime : Int
  keyUsages : List Nat

/-- Go's `x509.ExtKeyUsageTimeStamping`, as its numeric stdlib value. -/
def ExtKeyUsageTimeStamping : Nat := 8

/-- Oracles for the external cryptographic collaborators: `hash a b` recomputes
digest algorithm `a` over bytes `b`; `pkixToHash` models
`x509tools.PkixDigestToHash` (a `crypto.Hash` plus an ok flag); `siVerify`
models `pkcs7.SignerInfo.Verify(blob, false, certs)`; `certVerify` models
`x509.Certificate.Verify(opts)`; `now` is the current wall-clock time. -/
structure Ctx : Type where
  hash : Nat → Bytes → Bytes
  pkixToHash : Nat → Nat × Bool
  siVerify : SignerInfo → Bytes → List Cert → Except GoErr Cert
  certVerify : Cert → VerifyOptions → Except GoErr Unit
  now : Int

/-- First attribute stored under `oid`, if any (the lookup inside
`AttributeList.GetOne`). -/
def findAttr : List (OID × AttrValue) → OID → Option AttrValue
  | [], _ => none
  | (o, v) :: rest, oid => if o = oid then some v else findAttr rest oid

/-- Modelled from the spec: `attributes.getOne(oid, &outValue) -> error(NotFound)`
from the external PKCS#7 codec (`lib/pkcs7`, absent from src/), unmarshalling
into a nested signed-data token.  Absence is the generic attribute-not-found
condition; a payload of another shape fails to unmarshal. -/
def getOneToken (attrs : List (OID × AttrValue)) (oid : OID) :
    Except GoErr ContentInfoSignedData :=
  match findAttr attrs oid with
  | none => .error (.errNoAttribute oid)
  | some (.token t) => .ok t
  | some _ => .error (.errUnmarshal oid)

/-- Modelled from the spec: `attributes.getOne` unmarshalling into a bare
SignerInfo (the legacy counter-signature payload). -/
def getOneSigner (attrs : List (OID × AttrValue)) (oid : OID) :
    Except GoErr SignerInfo :=
  match findAttr attrs oid with
  | none => .error (.errNoAttribute oid)
  | some (.signer si) => .ok si
  | some _ => .error (.errUnmarshal oid)

/-- Modelled from the spec: `attributes.getOne` unmarshalling into a
`time.Time` (the signing-time authenticated attribute). -/
def getOneTime (attrs : List (OID × AttrValue)) (oid : OID) :
    Except GoErr Int :=
  match findAttr attrs oid with
  | none => .error (.errNoAttribute oid)
  | some (.time t) => .ok t
  | some _ => .error (.errUnmarshal oid)

/-- Modelled from the spec: `MessageImprint.verify(rawBytesItAttests)` from the
pkcs9 package (absent from src/) recomputes the hash of the supplied bytes with
the stated algorithm and compares for equality; any mismatch is a hard
integrity failure. -/
def messageImprintVerify (ctx : Ctx) (mi : MessageImprint) (blob : Bytes) :
    Except GoErr Unit :=
  if ctx.hash mi.hashAlgorithm blob = mi.hashedMessage then .ok ()
  else .error (.errMsg "digest check failed")

/-- Common tail of `VerifyTimestamp` (pkcs7.go lines 107-123): cryptographically
verify the nested SignerInfo over the chosen blob with the candidate
certificates, extract its authenticated signing-time attribute, and assemble
the CounterSignature. -/
def finishVerify (ctx : Ctx) (tsi : SignerInfo) (verifyBlob : Bytes)
    (certs : List Cert) (imprintHash : Nat) : Except GoErr CounterSignature :=
  match ctx.siVerify tsi verifyBlob certs with
  | .error e => .error e
  | .ok cert =>
    match getOneTime tsi.authenticatedAttributes OidAttributeSigningTime with
    | .error e => .error e
    | .ok signingTime =>
      .ok { signature := { signerInfo := tsi, certificate := cert, intermediates := certs },
            hash := imprintHash, signingTime := signingTime }

/-- Timestamp-token branch of `VerifyTimestamp` (pkcs7.go lines 68-94): require
exactly one nested SignerInfo, parse the bundled certificates, verify the
TSTInfo imprint against the parent's encrypted digest, then verify the nested
signature over the encoded TSTInfo content. -/
def verifyTokenPath (ctx : Ctx) (sig : Signature) (tst : ContentInfoSignedData) :
    Except GoErr CounterSignature :=
  match tst.signerInfos with
  | [tsi] =>
    match tst.certificates with
    | none => .error (.errMsg "certificate parse error")
    | some tsicerts =>
      let certs := if tsicerts.length = 0 then sig.intermediates
                   else sig.intermediates ++ tsicerts
      match tst.tstinfo with
      | none => .error (.errMsg "unpack token error")
      | some info =>
        match messageImprintVerify ctx info.messageImprint sig.signerInfo.encryptedDigest with
        | .error verr =>
          .error (.errMsg ("failed to verify timestamp imprint: " ++ verr.message))
        | .ok _ =>
          let imprintHash := (ctx.pkixToHash info.messageImprint.hashAlgorithm).1
          match tst.contentBytes with
          | none => .error (.errMsg "content bytes error")
          | some verifyBlob => finishVerify ctx tsi verifyBlob certs imprintHash
  | _ => .error (.errMsg "timestamp should have exactly one SignerInfo")

/-- Legacy counter-signature branch of `VerifyTimestamp` (pkcs7.go lines
95-103): the bare nested SignerInfo signs the parent's encrypted digest, and
the hash algorithm is the parent SignerInfo's digest algorithm. -/
def verifyLegacyPath (ctx : Ctx) (sig : Signature) : Except GoErr CounterSignature :=
  match getOneSigner sig.signerInfo.unauthenticatedAttributes OidAttributeCounterSign with
  | .error e => .error e
  | .ok tsi =>
    finishVerify ctx tsi sig.signerInfo.encryptedDigest sig.intermediates
      (ctx.pkixToHash sig.signerInfo.digestAlgorithm).1

/-- `pkcs9.VerifyTimestamp` (pkcs7.go lines 57-124): look for a timestamp in
the unauthenticated attributes, trying the standard RFC 3161 OID, then the
authenticode OID, then the legacy counter-signature attribute, and check its
integrity. -/
def VerifyTimestamp (ctx : Ctx) (sig : Signature) : Except GoErr CounterSignature :=
  match getOneToken sig.signerInfo.unauthenticatedAttributes OidAttributeTimeStampToken with
  | .ok tst => verifyTokenPath ctx sig tst
  | .error e =>
    if e.isNoAttribute then
      match getOneToken sig.signerInfo.unauthenticatedAttributes OidSpcTimeStampToken with
      | .ok tst => verifyTokenPath ctx sig tst
      | .error e2 =>
        if e2.isNoAttribute then verifyLegacyPath ctx sig
        else .error e2
    else .error e

/-- `pkcs9.VerifyOptionalTimestamp` (pkcs7.go lines 130-141): fold an
`ErrNoAttribute` outcome of `VerifyTimestamp` into a TimestampedSignature with
no CounterSignature; propagate every other error. -/
def VerifyOptionalTimestamp (ctx : Ctx) (sig : Signature) :
    Except GoErr TimestampedSignature :=
  match VerifyTimestamp ctx sig with
  | .error e =>
    if e.isNoAttribute then .ok { signature := sig, counterSignature := none }
    else .error e
  | .ok ts => .ok { signature := sig, counterSignature := some ts }

/-- `CounterSignature.VerifyChain` (pkcs7.go lines 144-160): pool the caller's
extra certificates with the timestamp's intermediates and verify the
timestamp's certificate at the timestamp's signing time, requiring the
time-stamping extended key usage. -/
def CounterSignature.VerifyChain (ctx : Ctx) (cs : CounterSignature)
    (roots : RootPool) (extraCerts : List Cert) : Except GoErr Unit :=
  ctx.certVerify cs.signature.certificate
    { intermediates := extraCerts ++ cs.signature.intermediates,
      roots := roots,
      currentTime := cs.signingTime,
      keyUsages := [ExtKeyUsageTimeStamping] }

/-- Modelled from the spec: `pkcs7.Signature.VerifyChain(roots, extras, usage,
signingTime)` (from `lib/pkcs7`, absent from src/) validates the main
signature's certificate chain against the roots at the given reference time,
where the zero time means the current time is used. -/
def pkcs7SignatureVerifyChain (ctx : Ctx) (s : Signature) (roots : RootPool)
    (extraCerts : List Cert) (usage : Nat) (signingTime : Int) : Except GoErr Unit :=
  ctx.certVerify s.certificate
    { intermediates := extraCerts ++ s.intermediates,
      roots := roots,
      currentTime := if signingTime = 0 then ctx.now else signingTime,
      keyUsages := [usage] }

/-- `TimestampedSignature.VerifyChain` (pkcs7.go lines 162-171): when a
CounterSignature is present, validate its chain first (wrapping any failure to
name the timestamp) and validate the main chain at the timestamp's signing
time; otherwise pass the zero time through. -/
def TimestampedSignature.VerifyChain (ctx : Ctx) (sig : TimestampedSignature)
    (roots : RootPool) (extraCerts : List Cert) (usage : Nat) : Except GoErr Unit :=
  match sig.counterSignature with
  | some cs =>
    match CounterSignature.VerifyChain ctx cs roots extraCerts with
    | .error e => .error (.errMsg ("validating timestamp: " ++ e.message))
    | .ok _ =>
      pkcs7SignatureVerifyChain ctx sig.signature roots extraCerts usage cs.signingTime
  | none => pkcs7SignatureVerifyChain ctx sig.signature roots extraCerts usage 0

/-- A per-operation digest/patch state of the PowerShell canonical digest
engine, opaque to the facade. -/
abbrev PsDigest := Nat

/-- A signed PKCS#7 blob, opaque to the facade. -/
abbrev Blob := Nat

/-- A binary patch produced by the digest engine, opaque to the facade. -/
abbrev Patch := Nat

/-- The result record the ps verifier returns (`signers.Signature`), reduced to
the fields it fills. -/
structure SignersSignature : Type where
  hash : Nat
  x509Signature : TimestampedSignature

/-- Oracles for the collaborators of the ps signer facade, each a field:
`getSigStyle` is the style registry lookup `resolveStyle(name) -> Style |
not-found` (modelled from the spec; `lib/authenticode` is absent from src/);
`allSigStyles` its list of known style names; `digestPowershell`, `digestSign`,
`makePatch`, `setBinPatch` the digest engine, envelope builder and patch
assembler; `timestampToken` the outcome of the timestamp-authority round trip
for this call; `verifyPowershell` the authenticode verifier; `pkixToHash` as in
`Ctx`. -/
structure PsEnv : Type where
  getSigStyle : String → Option Nat
  allSigStyles : List String
  digestPowershell : Nat → Nat → Except GoErr PsDigest
  digestSign : PsDigest → Except GoErr Blob
  timestampToken : Except GoErr Blob
  makePatch : PsDigest → Blob → Except GoErr Patch
  setBinPatch : Patch → Except GoErr Bytes
  verifyPowershell : Nat → Bool → Except GoErr TimestampedSignature
  pkixToHash : Nat → Nat × Bool

/-- The options the ps `sign` reads: the `ps-style` flag, the artifact path and
the hash algorithm. -/
structure SignOpts : Type where
  psStyleFlag : String
  path : String
  hashAlg : Nat

namespace ps

/-- `getStyle` (signer.go lines 94-100): resolve a style name through the
registry; an unresolved name is a hard error listing the known styles. -/
def getStyle (env : PsEnv) (name : String) : Except GoErr Nat :=
  match env.getSigStyle name with
  | some style => .ok style
  | none =>
    .error (.errMsg ("unknown powershell style, expected: "
      ++ String.intercalate " " env.allSigStyles))

/-- Modelled from the spec: `attachTimestamp(SignedBlob, tsaClient, required)`
(`signers/pkcs.Timestamp`, absent from src/): on a timestamp failure, return
the unstamped blob when `required` is false, propagate the error when
`required` is true. -/
def pkcsTimestamp (env : PsEnv) (psd : Blob) (required : Bool) : Except GoErr Blob :=
  match env.timestampToken with
  | .ok stamped => .ok stamped
  | .error e => if required then .error e else .ok psd

/-- The ps `sign` (signer.go lines 50-76): resolve the style from the flag or
the path, digest, sign, timestamp with `required = true`, build and return the
patch. -/
def sign (env : PsEnv) (opts : SignOpts) : Except GoErr Bytes :=
  let argStyle := if opts.psStyleFlag = "" then opts.path else opts.psStyleFlag
  match getStyle env argStyle with
  | .error e => .error e
  | .ok style =>
    match env.digestPowershell style opts.hashAlg with
    | .error e => .error e
    | .ok digest =>
      match env.digestSign digest with
      | .error e => .error e
      | .ok psd =>
        match pkcsTimestamp env psd true with
        | .error e => .error e
        | .ok blob =>
          match env.makePatch digest blob with
          | .error e => .error e
          | .ok patch => env.setBinPatch patch

/-- The ps `verify` (signer.go lines 78-92): resolve the style from the file
name, run the authenticode verifier, and wrap the result. -/
def verify (env : PsEnv) (fname : String) (noDigests : Bool) :
    Except GoErr (List SignersSignature) :=
  match getStyle env fname with
  | .error e => .error e
  | .ok style =>
    match env.verifyPowershell style noDigests with
    | .error e => .error e
    | .ok ts =>
      .ok [{ hash := (env.pkixToHash ts.signature.signerInfo.digestAlgorithm).1,
             x509Signature := ts }]

end ps

/-!  Concrete fixtures used by the witness and counterexample theorems. -/

/-- A concrete oracle context: the hash oracle returns `[]` for every input,
`pkixToHash` is the identity with an ok flag, signature verification always
resolves certificate `7`, chain verification always succeeds, and the current
time is `1000`. -/
def ctx0 : Ctx :=
  { hash := fun _ _ => [],
    pkixToHash := fun a => (a, true),
    siVerify := fun _ _ _ => .ok 7,
    certVerify := fun _ _ => .ok (),
    now := 1000 }

/-- A nested timestamp SignerInfo carrying a signing time of `42`. -/
def tsiWithTime : SignerInfo :=
  .mk 2 [4] [(OidAttributeSigningTime, .time 42)] []

/-- A nested timestamp SignerInfo with no authenticated attributes, hence no
signing time. -/
def tsiNoTime : SignerInfo := .mk 2 [4] [] []

/-- A well-formed timestamp token whose imprint matches `ctx0.hash` (both are
`[]`) and whose nested SignerInfo has a signing time. -/
def tstGood : ContentInfoSignedData :=
  .mk [tsiWithTime] (some []) (some { messageImprint := { hashAlgorithm := 1, hashedMessage := [] } }) (some [5])

/-- A timestamp token identical to `tstGood` except that its nested SignerInfo
lacks the signing-time attribute. -/
def tstNoTime : ContentInfoSignedData :=
  .mk [tsiNoTime] (some []) (some { messageImprint := { hashAlgorithm := 1, hashedMessage := [] } }) (some [5])

/-- A timestamp token with two nested SignerInfos. -/
def tstTwo : ContentInfoSignedData :=
  .mk [tsiWithTime, tsiNoTime] (some []) (some { messageImprint := { hashAlgorithm := 1, hashedMessage := [] } }) (some [5])

/-- A timestamp token whose imprint does not match `ctx0.hash` (its stored hash
is `[1]` while the oracle recomputes `[]`). -/
def tstBadImprint : ContentInfoSignedData :=
  .mk [tsiWithTime] (some []) (some { messageImprint := { hashAlgorithm := 1, hashedMessage := [1] } }) (some [5])

/-- A second distinct well-formed token, stored under the authenticode OID in
the both-attributes fixture. -/
def tstAlt : ContentInfoSignedData :=
  .mk [tsiWithTime] (some [9]) (some { messageImprint := { hashAlgorithm := 3, hashedMessage := [] } }) (some [6])

/-- Builds a parent signature whose SignerInfo carries the given
unauthenticated attributes. -/
def mkSig (attrs : List (OID × AttrValue)) : Signature :=
  { signerInfo := .mk 1 [9, 9] [] attrs, certificate := 1, intermediates := [2] }

/-- Parent signature carrying both the standard and the authenticode timestamp
attributes, with different tokens. -/
def sigBoth : Signature :=
  mkSig [(OidAttributeTimeStampToken, .token tstGood), (OidSpcTimeStampToken, .token tstAlt)]

/-- Parent signature whose token's nested SignerInfo lacks a signing time. -/
def sigNoTime : Signature := mkSig [(OidAttributeTimeStampToken, .token tstNoTime)]

/-- Parent signature whose token has two nested SignerInfos. -/
def sigTwo : Signature := mkSig [(OidAttributeTimeStampToken, .token tstTwo)]

/-- Parent signature whose token's imprint mismatches the recomputed hash. -/
def sigBadImprint : Signature := mkSig [(OidAttributeTimeStampToken, .token tstBadImprint)]

/-- Parent signature with no timestamp-related attributes at all. -/
def sigNone : Signature := mkSig [([9, 9, 9], .raw [0])]

/-- Parent signature carrying only a legacy counter-signature attribute. -/
def sigLegacy : Signature := mkSig [(OidAttributeCounterSign, .signer tsiWithTime)]

/-- A sample certificate-verification oracle that only checks the reference
time against a per-certificate validity window: verification succeeds exactly
when the options' current time lies between the certificate's notBefore and
notAfter bounds. -/
def windowVerify (nb na : Cert → Int) : Cert → VerifyOptions → Except GoErr Unit :=
  fun c opts =>
    if nb c ≤ opts.currentTime ∧ opts.currentTime ≤ na c then .ok ()
    else .error (.errMsg "certificate has expired or is not yet valid")

/-- Validity lower bound of the expired-certificate scenario: every
certificate is valid from time `0`. -/
def nbW : Cert → Int := fun _ => 0

/-- Validity upper bound of the expired-certificate scenario: every
certificate expires at time `10`. -/
def naW : Cert → Int := fun _ => 10

/-- Context whose certificate verification is the validity-window oracle and
whose current time `100` lies past every certificate's expiry. -/
def ctxW : Ctx := { ctx0 with certVerify := windowVerify nbW naW, now := 100 }

/-- A validated CounterSignature whose signing time `5` lies inside the
validity window even though the current time of `ctxW` is past expiry. -/
def csW : CounterSignature :=
  { signature := { signerInfo := tsiWithTime, certificate := 3, intermediates := [4] },
    hash := 1, signingTime := 5 }

/-- A timestamped signature carrying `csW`. -/
def tsW : TimestampedSignature := { signature := mkSig [], counterSignature := some csW }

/-- A trust-root pool fixture. -/
def roots0 : RootPool := [1]

/-- A ps-facade environment whose style registry resolves nothing; every other
collaborator succeeds. -/
def env0 : PsEnv :=
  { getSigStyle := fun _ => none,
    allSigStyles := ["ps1", "psd1", "psm1"],
    digestPowershell := fun _ _ => .ok 1,
    digestSign := fun _ => .ok 2,
    timestampToken := .ok 3,
    makePatch := fun _ _ => .ok 4,
    setBinPatch := fun _ => .ok [1],
    verifyPowershell := fun _ _ => .ok { signature := mkSig [], counterSignature := none },
    pkixToHash := fun a => (a, true) }

/-- A ps-facade environment whose style registry resolves everything to style
`0` but whose timestamp-authority round trip fails. -/
def envTsFail : PsEnv :=
  { env0 with getSigStyle := fun _ => some 0,
              timestampToken := .error (.errMsg "timestamp request failed") }

/-- Sign options fixture: no explicit style flag, so the artifact path is used
for style resolution. -/
def opts0 : SignOpts := { psStyleFlag := "", path := "foo.ps1", hashAlg := 5 }

/-!  Shared lemmas about which branch of `VerifyTimestamp` runs. -/

/-- When the standard RFC 3161 attribute holds a token, the token branch runs
on it. -/
theorem verifyTimestamp_std (ctx : Ctx) (sig : Signature) (tst : ContentInfoSignedData)
    (h : getOneToken sig.signerInfo.unauthenticatedAttributes OidAttributeTimeStampToken = .ok tst) :
    VerifyTimestamp ctx sig = verifyTokenPath ctx sig tst := by
  unfold VerifyTimestamp
  rw [h]

/-- When the standard attribute is absent but the authenticode attribute holds
a token, the token branch runs on the latter. -/
theorem verifyTimestamp_spc (ctx : Ctx) (sig : Signature) (tst : ContentInfoSignedData)
    (h1 : getOneToken sig.signerInfo.unauthenticatedAttributes OidAttributeTimeStampToken
        = .error (.errNoAttribute OidAttributeTimeStampToken))
    (h2 : getOneToken sig.signerInfo.unauthenticatedAttributes OidSpcTimeStampToken = .ok tst) :
    VerifyTimestamp ctx sig = verifyTokenPath ctx sig tst := by
  unfold VerifyTimestamp
  rw [h1, h2]
  simp [GoErr.isNoAttribute]

/-- When both timestamp-token attributes are absent, the legacy
counter-signature branch runs. -/
theorem verifyTimestamp_fallback (ctx : Ctx) (sig : Signature)
    (h1 : getOneToken sig.signerInfo.unauthenticatedAttributes OidAttributeTimeStampToken
        = .error (.errNoAttribute OidAttributeTimeStampToken))
    (h2 : getOneToken sig.signerInfo.unauthenticatedAttributes OidSpcTimeStampToken
        = .error (.errNoAttribute OidSpcTimeStampToken)) :
    VerifyTimestamp ctx sig = verifyLegacyPath ctx sig := by
  unfold VerifyTimestamp
  rw [h1, h2]
  simp [GoErr.isNoAttribute]

/-!  Claim theorems. -/

/-- C2: `VerifyTimestamp` evaluates timestamp attributes in strict priority
order with first match winning: the standard RFC 3161 timestamp-token OID
first, then the authenticode-specific timestamp OID, then the plain
counter-signature attribute; in particular, when the standard attribute is
present it is selected no matter what else the SignerInfo carries. -/
theorem C2_priority_order (ctx : Ctx) (sig : Signature) :
    (∀ tst, getOneToken sig.signerInfo.unauthenticatedAttributes OidAttributeTimeStampToken = .ok tst →
      VerifyTimestamp ctx sig = verifyTokenPath ctx sig tst) ∧
    (∀ tst, getOneToken sig.signerInfo.unauthenticatedAttributes OidAttributeTimeStampToken
        = .error (.errNoAttribute OidAttributeTimeStampToken) →
      getOneToken sig.signerInfo.unauthenticatedAttributes OidSpcTimeStampToken = .ok tst →
      VerifyTimestamp ctx sig = verifyTokenPath ctx sig tst) ∧
    (getOneToken sig.signerInfo.unauthenticatedAttributes OidAttributeTimeStampToken
        = .error (.errNoAttribute OidAttributeTimeStampToken) →
      getOneToken sig.signerInfo.unauthenticatedAttributes OidSpcTimeStampToken
        = .error (.errNoAttribute OidSpcTimeStampToken) →
      VerifyTimestamp ctx sig = verifyLegacyPath ctx sig) :=
  ⟨fun tst h => verifyTimestamp_std ctx sig tst h,
   fun tst h1 h2 => verifyTimestamp_spc ctx sig tst h1 h2,
   fun h1 h2 => verifyTimestamp_fallback ctx sig h1 h2⟩

/-- C2 witness: on a signature carrying both the standard (`tstGood`) and the
authenticode (`tstAlt`) timestamp attributes, the standard token is the one
processed. -/
theorem C2_priority_order_witness :
    VerifyTimestamp ctx0 sigBoth = verifyTokenPath ctx0 sigBoth tstGood :=
  (C2_priority_order ctx0 sigBoth).1 tstGood rfl

/-- C6: a timestamp token found in the unauthenticated attributes (under the
standard OID, or under the authenticode OID after the standard one is absent)
whose nested SignedData does not contain exactly one SignerInfo makes
`VerifyTimestamp` fail with the "exactly one SignerInfo" structural error. -/
theorem C6_exactly_one_signerinfo (ctx : Ctx) (sig : Signature) (tst : ContentInfoSignedData)
    (hfound : getOneToken sig.signerInfo.unauthenticatedAttributes OidAttributeTimeStampToken = .ok tst
      ∨ (getOneToken sig.signerInfo.unauthenticatedAttributes OidAttributeTimeStampToken
            = .error (.errNoAttribute OidAttributeTimeStampToken)
          ∧ getOneToken sig.signerInfo.unauthenticatedAttributes OidSpcTimeStampToken = .ok tst))
    (hlen : tst.signerInfos.length ≠ 1) :
    VerifyTimestamp ctx sig = .error (.errMsg "timestamp should have exactly one SignerInfo") := by
  have hpath : VerifyTimestamp ctx sig = verifyTokenPath ctx sig tst := by
    rcases hfound with h | ⟨h1, h2⟩
    · exact verifyTimestamp_std ctx sig tst h
    · exact verifyTimestamp_spc ctx sig tst h1 h2
  rw [hpath]
  unfold verifyTokenPath
  rcases hsi : tst.signerInfos with _ | ⟨a, _ | ⟨b, rest⟩⟩
  · rfl
  · rw [hsi] at hlen
    simp at hlen
  · rfl

/-- C6 witness: a token with two nested SignerInfos fails with the structural
error. -/
theorem C6_exactly_one_signerinfo_witness :
    VerifyTimestamp ctx0 sigTwo = .error (.errMsg "timestamp should have exactly one SignerInfo") :=
  C6_exactly_one_signerinfo ctx0 sigTwo tstTwo (.inl rfl) (by decide)

/-- C3: once a timestamp token is selected, its MessageImprint is verified
against the parent SignerInfo's raw encrypted digest by recomputing the hash
with the imprint's stated algorithm; a mismatch makes `VerifyTimestamp` return
the imprint error (no CounterSignature), and only a match lets verification
proceed to the nested-signature check. -/
theorem C3_imprint_against_encrypted_digest (ctx : Ctx) (sig : Signature)
    (tst : ContentInfoSignedData) (tsi : SignerInfo) (tsicerts : List Cert) (info : TSTInfo)
    (hget : getOneToken sig.signerInfo.unauthenticatedAttributes OidAttributeTimeStampToken = .ok tst)
    (hone : tst.signerInfos = [tsi])
    (hcerts : tst.certificates = some tsicerts)
    (hinfo : tst.tstinfo = some info) :
    (ctx.hash info.messageImprint.hashAlgorithm sig.signerInfo.encryptedDigest
        ≠ info.messageImprint.hashedMessage →
      VerifyTimestamp ctx sig
        = .error (.errMsg ("failed to verify timestamp imprint: " ++ "digest check failed"))) ∧
    (ctx.hash info.messageImprint.hashAlgorithm sig.signerInfo.encryptedDigest
        = info.messageImprint.hashedMessage →
      ∀ blob, tst.contentBytes = some blob →
      VerifyTimestamp ctx sig
        = finishVerify ctx tsi blob
            (if tsicerts.length = 0 then sig.intermediates else sig.intermediates ++ tsicerts)
            (ctx.pkixToHash info.messageImprint.hashAlgorithm).1) := by
  have hpath := verifyTimestamp_std ctx sig tst hget
  constructor
  · intro hne
    rw [hpath]
    unfold verifyTokenPath messageImprintVerify
    simp only [hone, hcerts, hinfo, if_neg hne]
    simp [GoErr.message]
  · intro heq blob hblob
    rw [hpath]
    unfold verifyTokenPath messageImprintVerify
    simp only [hone, hcerts, hinfo, hblob, if_pos heq]

/-- C3 witness: a token whose stored imprint is `[1]` while the hash oracle
recomputes `[]` over the parent's encrypted digest fails with the imprint
error. -/
theorem C3_imprint_against_encrypted_digest_witness :
    VerifyTimestamp ctx0 sigBadImprint
      = .error (.errMsg ("failed to verify timestamp imprint: " ++ "digest check failed")) :=
  (C3_imprint_against_encrypted_digest ctx0 sigBadImprint tstBadImprint tsiWithTime []
    { messageImprint := { hashAlgorithm := 1, hashedMessage := [1] } }
    rfl rfl rfl rfl).1 (by decide)

/-- C1 counterexample: on a signature whose timestamp token verifies (imprint
and nested signature both pass) but whose nested SignerInfo has no
authenticated signing-time attribute, `VerifyTimestamp` fails with the
attribute-not-found error for the signing-time OID — and
`VerifyOptionalTimestamp` does NOT propagate it: it returns a
TimestampedSignature with no CounterSignature and no error, contrary to the
claim. -/
theorem C1_counterexample :
    VerifyTimestamp ctx0 sigNoTime = .error (.errNoAttribute OidAttributeSigningTime) ∧
    VerifyOptionalTimestamp ctx0 sigNoTime
      = .ok { signature := sigNoTime, counterSignature := none } :=
  ⟨rfl, rfl⟩

/-- C1 amended: when the imprint and nested signature verify but the nested
SignerInfo has no authenticated signing-time attribute, `VerifyTimestamp` fails
with the attribute-not-found error for the signing-time OID, and
`VerifyOptionalTimestamp` — which folds every `ErrNoAttribute` into absence —
swallows that failure and returns a TimestampedSignature with no
CounterSignature and no error, indistinguishable from a genuinely absent
timestamp. -/
theorem C1_missing_signing_time_swallowed (ctx : Ctx) (sig : Signature)
    (tst : ContentInfoSignedData) (tsi : SignerInfo) (tsicerts : List Cert)
    (info : TSTInfo) (blob : Bytes) (cert : Cert)
    (hget : getOneToken sig.signerInfo.unauthenticatedAttributes OidAttributeTimeStampToken = .ok tst)
    (hone : tst.signerInfos = [tsi])
    (hcerts : tst.certificates = some tsicerts)
    (hinfo : tst.tstinfo = some info)
    (himp : ctx.hash info.messageImprint.hashAlgorithm sig.signerInfo.encryptedDigest
        = info.messageImprint.hashedMessage)
    (hblob : tst.contentBytes = some blob)
    (hsv : ctx.siVerify tsi blob
        (if tsicerts.length = 0 then sig.intermediates else sig.intermediates ++ tsicerts)
        = .ok cert)
    (htime : findAttr tsi.authenticatedAttributes OidAttributeSigningTime = none) :
    VerifyTimestamp ctx sig = .error (.errNoAttribute OidAttributeSigningTime) ∧
    VerifyOptionalTimestamp ctx sig
      = .ok { signature := sig, counterSignature := none } := by
  have hvt : VerifyTimestamp ctx sig = .error (.errNoAttribute OidAttributeSigningTime) := by
    rw [verifyTimestamp_std ctx sig tst hget]
    unfold verifyTokenPath messageImprintVerify
    simp only [hone, hcerts, hinfo, hblob, if_pos himp]
    unfold finishVerify getOneTime
    simp only [hsv, htime]
  refine ⟨hvt, ?_⟩
  unfold VerifyOptionalTimestamp
  rw [hvt]
  simp [GoErr.isNoAttribute]

/-- C1 amended witness: the concrete no-signing-time signature exercises the
amended claim end to end. -/
theorem C1_missing_signing_time_swallowed_witness :
    VerifyTimestamp ctx0 sigNoTime = .error (.errNoAttribute OidAttributeSigningTime) ∧
    VerifyOptionalTimestamp ctx0 sigNoTime
      = .ok { signature := sigNoTime, counterSignature := none } :=
  C1_missing_signing_time_swallowed ctx0 sigNoTime tstNoTime tsiNoTime []
    { messageImprint := { hashAlgorithm := 1, hashedMessage := [] } } [5] 7
    rfl rfl rfl rfl rfl rfl rfl rfl

/-- C7: a signature whose SignerInfo carries none of the three
timestamp-related unauthenticated attributes makes `VerifyTimestamp` return
the attribute-not-found value (the "absent" outcome of the lookup cascade),
and `VerifyOptionalTimestamp` surfaces it to callers as a successful
TimestampedSignature with no CounterSignature, not as a failure. -/
theorem C7_absence_not_error (ctx : Ctx) (sig : Signature)
    (h1 : findAttr sig.signerInfo.unauthenticatedAttributes OidAttributeTimeStampToken = none)
    (h2 : findAttr sig.signerInfo.unauthenticatedAttributes OidSpcTimeStampToken = none)
    (h3 : findAttr sig.signerInfo.unauthenticatedAttributes OidAttributeCounterSign = none) :
    VerifyTimestamp ctx sig = .error (.errNoAttribute OidAttributeCounterSign) ∧
    VerifyOptionalTimestamp ctx sig
      = .ok { signature := sig, counterSignature := none } := by
  have hstd : getOneToken sig.signerInfo.unauthenticatedAttributes OidAttributeTimeStampToken
      = .error (.errNoAttribute OidAttributeTimeStampToken) := by
    unfold getOneToken
    rw [h1]
  have hspc : getOneToken sig.signerInfo.unauthenticatedAttributes OidSpcTimeStampToken
      = .error (.errNoAttribute OidSpcTimeStampToken) := by
    unfold getOneToken
    rw [h2]
  have hvt : VerifyTimestamp ctx sig = .error (.errNoAttribute OidAttributeCounterSign) := by
    rw [verifyTimestamp_fallback ctx sig hstd hspc]
    unfold verifyLegacyPath getOneSigner
    rw [h3]
  refine ⟨hvt, ?_⟩
  unfold VerifyOptionalTimestamp
  rw [hvt]
  simp [GoErr.isNoAttribute]

/-- C7 witness: a signature with an unrelated attribute only. -/
theorem C7_absence_not_error_witness :
    VerifyTimestamp ctx0 sigNone = .error (.errNoAttribute OidAttributeCounterSign) ∧
    VerifyOptionalTimestamp ctx0 sigNone
      = .ok { signature := sigNone, counterSignature := none } :=
  C7_absence_not_error ctx0 sigNone rfl rfl rfl

/-- C8: in the legacy counter-signature path (bare nested SignerInfo, no
nested SignedData), the bytes cryptographically verified are the parent
SignerInfo's raw encrypted digest directly, and the returned
CounterSignature's hash algorithm is the one mapped from the parent
SignerInfo's own digest algorithm. -/
theorem C8_legacy_counter_signature (ctx : Ctx) (sig : Signature) (tsi : SignerInfo)
    (h1 : findAttr sig.signerInfo.unauthenticatedAttributes OidAttributeTimeStampToken = none)
    (h2 : findAttr sig.signerInfo.unauthenticatedAttributes OidSpcTimeStampToken = none)
    (h3 : getOneSigner sig.signerInfo.unauthenticatedAttributes OidAttributeCounterSign = .ok tsi) :
    VerifyTimestamp ctx sig
      = finishVerify ctx tsi sig.signerInfo.encryptedDigest sig.intermediates
          (ctx.pkixToHash sig.signerInfo.digestAlgorithm).1 ∧
    (∀ cert t, ctx.siVerify tsi sig.signerInfo.encryptedDigest sig.intermediates = .ok cert →
      getOneTime tsi.authenticatedAttributes OidAttributeSigningTime = .ok t →
      VerifyTimestamp ctx sig
        = .ok { signature := { signerInfo := tsi, certificate := cert,
                               intermediates := sig.intermediates },
                hash := (ctx.pkixToHash sig.signerInfo.digestAlgorithm).1,
                signingTime := t }) := by
  have hstd : getOneToken sig.signerInfo.unauthenticatedAttributes OidAttributeTimeStampToken
      = .error (.errNoAttribute OidAttributeTimeStampToken) := by
    unfold getOneToken
    rw [h1]
  have hspc : getOneToken sig.signerInfo.unauthenticatedAttributes OidSpcTimeStampToken
      = .error (.errNoAttribute OidSpcTimeStampToken) := by
    unfold getOneToken
    rw [h2]
  have hmain : VerifyTimestamp ctx sig
      = finishVerify ctx tsi sig.signerInfo.encryptedDigest sig.intermediates
          (ctx.pkixToHash sig.signerInfo.digestAlgorithm).1 := by
    rw [verifyTimestamp_fallback ctx sig hstd hspc]
    unfold verifyLegacyPath
    rw [h3]
  refine ⟨hmain, ?_⟩
  intro cert t hsv ht
  rw [hmain]
  unfold finishVerify
  rw [hsv, ht]

/-- C8 witness: the concrete legacy counter-signature fixture yields a
CounterSignature whose hash is the parent's digest algorithm mapped through
`pkixToHash` (here the identity, so `1`). -/
theorem C8_legacy_counter_signature_witness :
    VerifyTimestamp ctx0 sigLegacy
      = .ok { signature := { signerInfo := tsiWithTime, certificate := 7, intermediates := [2] },
              hash := 1, signingTime := 42 } :=
  (C8_legacy_counter_signature ctx0 sigLegacy tsiWithTime rfl rfl rfl).2 7 42 rfl rfl

/-- C4: `TimestampedSignature.VerifyChain` with a CounterSignature present
first validates the timestamp's own chain, wrapping any failure as an error
naming the timestamp; the reference time for the main signature's chain is the
timestamp's signing time when a timestamp is present (signing time nonzero, as
an attested time always is) and the current time otherwise. -/
theorem C4_reference_time (ctx : Ctx) (roots : RootPool) (extraCerts : List Cert) (usage : Nat) :
    (∀ sig cs, sig.counterSignature = some cs →
      (∀ e, CounterSignature.VerifyChain ctx cs roots extraCerts = .error e →
        TimestampedSignature.VerifyChain ctx sig roots extraCerts usage
          = .error (.errMsg ("validating timestamp: " ++ e.message))) ∧
      (cs.signingTime ≠ 0 →
        CounterSignature.VerifyChain ctx cs roots extraCerts = .ok () →
        TimestampedSignature.VerifyChain ctx sig roots extraCerts usage
          = ctx.certVerify sig.signature.certificate
              { intermediates := extraCerts ++ sig.signature.intermediates,
                roots := roots, currentTime := cs.signingTime, keyUsages := [usage] })) ∧
    (∀ sig, sig.counterSignature = none →
      TimestampedSignature.VerifyChain ctx sig roots extraCerts usage
        = ctx.certVerify sig.signature.certificate
            { intermediates := extraCerts ++ sig.signature.intermediates,
              roots := roots, currentTime := ctx.now, keyUsages := [usage] }) := by
  constructor
  · intro sig cs hcs
    constructor
    · intro e he
      unfold TimestampedSignature.VerifyChain
      simp only [hcs, he]
    · intro hnz hok
      unfold TimestampedSignature.VerifyChain
      simp only [hcs, hok]
      unfold pkcs7SignatureVerifyChain
      rw [if_neg hnz]
  · intro sig hnone
    unfold TimestampedSignature.VerifyChain
    simp only [hnone]
    unfold pkcs7SignatureVerifyChain
    simp

/-- C4 witness: with the always-succeeding chain oracle of `ctx0` and the
timestamped fixture `tsW`, the main chain is validated at the timestamp's
signing time. -/
theorem C4_reference_time_witness :
    TimestampedSignature.VerifyChain ctx0 tsW roots0 [] 3
      = ctx0.certVerify tsW.signature.certificate
          { intermediates := [] ++ tsW.signature.intermediates,
            roots := roots0, currentTime := csW.signingTime, keyUsages := [3] } :=
  ((C4_reference_time ctx0 roots0 [] 3).1 tsW csW rfl).2 (by decide) rfl

/-- C5: `CounterSignature.VerifyChain` validates the timestamp's certificate
against the roots using the CounterSignature's SigningTime as the reference
time and requiring the time-stamping extended key usage; with a
validity-window oracle this means a timestamp-authority certificate already
expired at the current time still passes when it was valid at the signing
time. -/
theorem C5_signing_time_reference (ctx : Ctx) (cs : CounterSignature)
    (roots : RootPool) (extraCerts : List Cert) :
    CounterSignature.VerifyChain ctx cs roots extraCerts
      = ctx.certVerify cs.signature.certificate
          { intermediates := extraCerts ++ cs.signature.intermediates,
            roots := roots, currentTime := cs.signingTime,
            keyUsages := [ExtKeyUsageTimeStamping] } ∧
    (∀ nb na, ctx.certVerify = windowVerify nb na →
      na cs.signature.certificate < ctx.now →
      nb cs.signature.certificate ≤ cs.signingTime →
      cs.signingTime ≤ na cs.signature.certificate →
      CounterSignature.VerifyChain ctx cs roots extraCerts = .ok ()) := by
  refine ⟨rfl, ?_⟩
  intro nb na hcv hexp hlo hhi
  unfold CounterSignature.VerifyChain
  rw [hcv]
  simp [windowVerify, hlo, hhi]

/-- C5 witness: in `ctxW` the certificate expires at time `10`, the current
time is `100`, and the signing time `5` lies inside the validity window, so
chain validation succeeds despite the expiry. -/
theorem C5_signing_time_reference_witness :
    CounterSignature.VerifyChain ctxW csW roots0 [] = .ok () :=
  (C5_signing_time_reference ctxW csW roots0 []).2 nbW naW rfl (by decide) (by decide) (by decide)

/-- C9: an artifact or style name the registry cannot resolve is a hard
error in both the sign and the verify pipeline of the ps facade; the
environment is universally quantified, so the failure does not depend on any
digesting or signature collaborator — no digest work influences the result. -/
theorem C9_unresolved_style_hard_error (env : PsEnv) (opts : SignOpts)
    (fname : String) (noDigests : Bool) :
    (env.getSigStyle (if opts.psStyleFlag = "" then opts.path else opts.psStyleFlag) = none →
      ps.sign env opts
        = .error (.errMsg ("unknown powershell style, expected: "
            ++ String.intercalate " " env.allSigStyles))) ∧
    (env.getSigStyle fname = none →
      ps.verify env fname noDigests
        = .error (.errMsg ("unknown powershell style, expected: "
            ++ String.intercalate " " env.allSigStyles))) := by
  constructor
  · intro h
    unfold ps.sign ps.getStyle
    simp only [h]
  · intro h
    unfold ps.verify ps.getStyle
    simp only [h]

/-- C9 witness: with an empty registry, signing `foo.ps1` and verifying it
both fail with the unresolved-style error. -/
theorem C9_unresolved_style_hard_error_witness :
    ps.sign env0 opts0
      = .error (.errMsg ("unknown powershell style, expected: "
          ++ String.intercalate " " env0.allSigStyles)) ∧
    ps.verify env0 "foo.ps1" false
      = .error (.errMsg ("unknown powershell style, expected: "
          ++ String.intercalate " " env0.allSigStyles)) :=
  ⟨(C9_unresolved_style_hard_error env0 opts0 "foo.ps1" false).1 rfl,
   (C9_unresolved_style_hard_error env0 opts0 "foo.ps1" false).2 rfl⟩

/-- C10: the ps `sign` invokes timestamping with `required = true`, so once
the style resolves and digesting and enveloping succeed, a timestamp failure
makes the whole sign fail with that error, while the soft (`required = false`)
fold of `pkcsTimestamp` — which would return the unstamped blob — is never the
one taken. -/
theorem C10_timestamp_required (env : PsEnv) (opts : SignOpts)
    (style : Nat) (digest : PsDigest) (psd : Blob) (e : GoErr)
    (hstyle : env.getSigStyle (if opts.psStyleFlag = "" then opts.path else opts.psStyleFlag)
        = some style)
    (hdig : env.digestPowershell style opts.hashAlg = .ok digest)
    (hsign : env.digestSign digest = .ok psd)
    (hts : env.timestampToken = .error e) :
    ps.sign env opts = .error e ∧ ps.pkcsTimestamp env psd false = .ok psd := by
  constructor
  · unfold ps.sign ps.getStyle ps.pkcsTimestamp
    simp only [hstyle, hdig, hsign, hts]
    simp
  · unfold ps.pkcsTimestamp
    simp only [hts]
    simp

/-- C10 witness: with a failing timestamp authority and otherwise successful
collaborators, signing fails with the timestamp error while the optional fold
would have returned the unstamped blob. -/
theorem C10_timestamp_required_witness :
    ps.sign envTsFail opts0 = .error (.errMsg "timestamp request failed") ∧
    ps.pkcsTimestamp envTsFail 2 false = .ok 2 :=
  C10_timestamp_required envTsFail opts0 0 1 2 (.errMsg "timestamp request failed")
    rfl rfl rfl rfl
